import Mathlib

/-!
Verification development for the incus node-daemon core.

Part 1 embeds internal/server/project/project.go (project name mangling).
Part 2 embeds the request-admission pipeline of the daemon (createCmd and
Authenticate), the shared-mount setup helper, and the heartbeat handler.

Go strings are modelled as lists of characters; Go maps used only for
lookup are modelled as association lists; external collaborators that are
not part of the given sources (certificate trust checking, the OIDC
verifier, peer-credential lookup) are modelled as explicit data carried by
the daemon or request model, as described at each definition.
-/

namespace IncusModel

namespace Project

/-- The constant for the default project name ("default" in project.go). -/
def Default : List Char := ['d', 'e', 'f', 'a', 'u', 'l', 't']

/-- The separator used to delimit the project name from the suffix ("_"). -/
def separator : Char := '_'

/-- Instance adds the project prefix and separator to the instance name when
the given project name is not "default" (project.go, func Instance). -/
def Instance (projectName instanceName : List Char) : List Char :=
  if projectName ≠ Default then projectName ++ separator :: instanceName
  else instanceName

/-- Index of the last occurrence of the separator in a string, if any
(strings.LastIndex with the separator as needle). -/
def lastIndexOfSep : List Char → Option Nat
  | [] => none
  | c :: rest =>
    match lastIndexOfSep rest with
    | some i => some (i + 1)
    | none => if c = separator then some 0 else none

/-- InstanceParts splits a project-prefixed instance name at the last
separator; a string with no separator belongs to the default project
(project.go, func InstanceParts). -/
def InstanceParts (s : List Char) : List Char × List Char :=
  match lastIndexOfSep s with
  | none => (Default, s)
  | some i => (s.take i, s.drop (i + 1))

/-- Index of the first occurrence of the separator in a string, if any
(the split point of strings.SplitN with limit 2). -/
def indexOfSep : List Char → Option Nat
  | [] => none
  | c :: rest =>
    if c = separator then some 0
    else (indexOfSep rest).map (fun i => i + 1)

/-- StorageVolume adds the project prefix and separator even for the default
project (project.go, func StorageVolume). -/
def StorageVolume (projectName storageVolumeName : List Char) : List Char :=
  projectName ++ separator :: storageVolumeName

/-- StorageVolumeParts splits at the first separator. In Go the function
indexes parts[1] of strings.SplitN(s, sep, 2) without a guard, which panics
when the input has no separator; the total embedding therefore returns an
Option in the second component, none exactly when the Go code would panic
(project.go, func StorageVolumeParts). -/
def StorageVolumeParts (s : List Char) : List Char × Option (List Char) :=
  match indexOfSep s with
  | none => (s, none)
  | some i => (s.take i, some (s.drop (i + 1)))

lemma lastIndexOfSep_eq_none_of_not_mem {l : List Char} (h : separator ∉ l) :
    lastIndexOfSep l = none := by
  induction l with
  | nil => rfl
  | cons c rest ih =>
    have hc : c ≠ separator := fun hcc => h (hcc ▸ List.mem_cons_self c rest)
    have hrest : separator ∉ rest := fun hm => h (List.mem_cons_of_mem c hm)
    simp [lastIndexOfSep, ih hrest, hc]

lemma lastIndexOfSep_append {p n : List Char} (h : separator ∉ n) :
    lastIndexOfSep (p ++ separator :: n) = some p.length := by
  induction p with
  | nil =>
    simp [lastIndexOfSep, lastIndexOfSep_eq_none_of_not_mem h]
  | cons c rest ih =>
    simp [lastIndexOfSep, ih]

lemma indexOfSep_eq_none_iff (l : List Char) :
    indexOfSep l = none ↔ separator ∉ l := by
  induction l with
  | nil => simp [indexOfSep]
  | cons c rest ih =>
    by_cases hc : c = separator
    · subst hc
      simp [indexOfSep]
    · simp only [indexOfSep, hc, if_false, List.mem_cons]
      constructor
      · intro hmap
        rcases hm : indexOfSep rest with _ | i
        · intro hor
          rcases hor with h1 | h2
          · exact hc h1.symm
          · exact (ih.mp hm) h2
        · rw [hm] at hmap
          simp [Option.map] at hmap
      · intro hnot
        have : separator ∉ rest := fun hm => hnot (Or.inr hm)
        rw [ih.mpr this]
        rfl

lemma indexOfSep_append {a b : List Char} (h : separator ∉ a) :
    indexOfSep (a ++ separator :: b) = some a.length := by
  induction a with
  | nil => simp [indexOfSep]
  | cons c rest ih =>
    have hc : c ≠ separator := fun hcc => h (hcc ▸ List.mem_cons_self c rest)
    have hrest : separator ∉ rest := fun hm => h (List.mem_cons_of_mem c hm)
    simp [indexOfSep, hc, ih hrest]

lemma take_length_append (p tail : List Char) :
    (p ++ tail).take p.length = p := by
  induction p with
  | nil => rfl
  | cons c rest ih => simp [List.take, ih]

lemma drop_length_succ_append (p : List Char) (c : Char) (n : List Char) :
    (p ++ c :: n).drop (p.length + 1) = n := by
  induction p with
  | nil => rfl
  | cons d rest ih => simp [List.drop, ih]

end Project

/-- A peer certificate, identified by its fingerprint. -/
structure Cert where
  fingerprint : String
deriving DecidableEq

/-- Modelled from the spec: localUtil.CheckTrustState is an external helper
absent from the given sources; per the spec it tests a certificate against a
trust set and reports the fingerprint. The networkCert and
trustCACertificates arguments only affect the internals of that helper and
are not modelled. -/
def CheckTrustState (cert : Cert) (trustSet : List String) : Bool × String :=
  (trustSet.contains cert.fingerprint, cert.fingerprint)

/-- First certificate of the list trusted against the given set, together
with its fingerprint: the per-certificate loops inside Authenticate. -/
def firstTrustMatch (certs : List Cert) (trustSet : List String) : Option String :=
  certs.findSome? (fun c =>
    if (CheckTrustState c trustSet).1 then some (CheckTrustState c trustSet).2 else none)

/-- Modelled from the spec: peer credentials of a local Unix-socket caller,
resolved by ucred.GetCredFromContext and user.LookupId, which are external
to the given sources. The lookedUpName field is the result of the user
lookup for the uid, none when the lookup fails. -/
structure Cred where
  uid : Nat
  lookedUpName : Option String
deriving DecidableEq

/-- Outcome of the external OIDC verifier on a request it claims. -/
inductive OIDCOutcome where
  | success (userName : String)
  | authError
  | otherError
deriving DecidableEq

/-- An incoming HTTP request, reduced to the fields the admission pipeline
reads. The tls field is none when the request carries no TLS state,
matching the r.TLS nil pointer; clusterNotification is modelled from the
spec (isClusterNotification is defined outside the given sources: whether
the request looks like a cluster notification); xIncusAuthenticated is the
value of the X-Incus-authenticated header, the empty string when absent,
matching Header.Get. -/
structure Request where
  remoteAddr : String
  method : String
  urlPath : String
  tls : Option (List Cert)
  cred : Option Cred
  clusterNotification : Bool
  xIncusAuthenticated : String
  forwardedAddress : String
  forwardedUsername : String
  forwardedProtocol : String
  isJSONRequest : Bool
  bodyReadFails : Bool
deriving DecidableEq

/-- Modelled from the spec: the external OIDC verifier, reduced to whether
it claims a request and what its authentication then yields. -/
structure OIDCModel where
  isRequest : Request → Bool
  auth : Request → OIDCOutcome

/-- The daemon state read by the admission pipeline. The three trust sets
are the fingerprint sets of the certificate cache keyed by kind; the
certProjects field is the per-certificate project restriction map returned
by clientCerts.GetProjects, none when that map is nil. -/
structure Daemon where
  setupChanClosed : Bool
  shutdownCancelled : Bool
  debug : Bool
  serverTrust : List String
  metricsTrust : List String
  clientTrust : List String
  certProjects : Option (List (String × List String))
  oidc : Option OIDCModel

/-- Error component of the Authenticate return value: no error, a plain
error, or an OIDC AuthError (the only kind the pipeline treats specially). -/
inductive AErr where
  | noErr
  | plain
  | oidcAuth
deriving DecidableEq

/-- Return value of Authenticate: trusted flag, username or fingerprint,
protocol, and error component. -/
structure AuthRes where
  trusted : Bool
  username : String
  protocol : String
  err : AErr
deriving DecidableEq

/-- The metrics-trust and client-trust cascade at the end of Authenticate:
the metrics set is only consulted when the URL path is exactly
/1.0/metrics, then the client set is consulted. -/
def authTLSCertChecks (d : Daemon) (r : Request) (certs : List Cert) : AuthRes :=
  let metricsMatch : Option String :=
    if r.urlPath = "/1.0/metrics" then firstTrustMatch certs d.metricsTrust else none
  match metricsMatch with
  | some u => ⟨true, u, "tls", AErr.noErr⟩
  | none =>
    match firstTrustMatch certs d.clientTrust with
    | some u => ⟨true, u, "tls", AErr.noErr⟩
    | none => ⟨false, "", "", AErr.noErr⟩

/-- The OIDC step of Authenticate followed by the certificate cascade. -/
def authAfterTLSChecks (d : Daemon) (r : Request) (certs : List Cert) : AuthRes :=
  match d.oidc with
  | some o =>
    if o.isRequest r then
      match o.auth r with
      | OIDCOutcome.success u => ⟨true, u, "oidc", AErr.noErr⟩
      | OIDCOutcome.authError => ⟨false, "", "", AErr.oidcAuth⟩
      | OIDCOutcome.otherError => ⟨false, "", "", AErr.plain⟩
    else authTLSCertChecks d r certs
  | none => authTLSCertChecks d r certs

/-- Authenticate validates an incoming request (daemon.go, func
Authenticate); the hasWriter flag mirrors the nil check on the response
writer in the Unix-socket branch. -/
def Authenticate (d : Daemon) (hasWriter : Bool) (r : Request) : AuthRes :=
  let serverMatch : Option String :=
    match r.tls with
    | some certs => firstTrustMatch certs d.serverTrust
    | none => none
  match serverMatch with
  | some fp => ⟨true, fp, "cluster", AErr.noErr⟩
  | none =>
    if r.remoteAddr = "@" ∧ r.tls = none then
      if hasWriter then
        match r.cred with
        | none => ⟨false, "", "", AErr.plain⟩
        | some cr =>
          match cr.lookedUpName with
          | none => ⟨true, "uid=" ++ toString cr.uid, "unix", AErr.noErr⟩
          | some u => ⟨true, u, "unix", AErr.noErr⟩
      else ⟨true, "", "unix", AErr.noErr⟩
    else if r.remoteAddr = "@dev_incus" then ⟨false, "", "", AErr.plain⟩
    else if r.clusterNotification then ⟨false, "", "", AErr.plain⟩
    else
      match r.tls with
      | none => ⟨false, "", "", AErr.plain⟩
      | some certs => authAfterTLSChecks d r certs

/-- UserAccess attached to an authenticated request: admin flag and the
permitted project names (the keys of the Go project map, whose values are
nil). -/
structure UserAccess where
  admin : Bool
  projects : List String
deriving DecidableEq

/-- Context data attached to the request before dispatch: username,
protocol, access record, and for cluster requests the forwarded requestor
headers. -/
structure ReqCtx where
  username : String
  protocol : String
  access : UserAccess
  forwarded : Option (String × String × String)
deriving DecidableEq

/-- Lookup in the per-certificate project restriction map. -/
def lookupProjects (entries : List (String × List String)) (fp : String) :
    Option (List String) :=
  match entries.find? (fun e => e.1 = fp) with
  | some e => some e.2
  | none => none

/-- The userAccess closure of createCmd: admins by default; cluster peers
returned immediately; TLS clients downgraded to non-admin with the listed
projects when the restriction map has an entry for their fingerprint. -/
def getUserAccess (d : Daemon) (protocol username : String) : UserAccess :=
  if protocol = "cluster" then ⟨true, []⟩
  else if protocol = "tls" then
    match d.certProjects with
    | none => ⟨true, []⟩
    | some cp =>
      match lookupProjects cp username with
      | some projects => ⟨false, projects⟩
      | none => ⟨true, []⟩
  else ⟨true, []⟩

/-- An action on an API endpoint, reduced to the fields the pipeline reads
before invoking the handler. -/
structure APIEndpointAction where
  hasHandler : Bool
  hasAccessHandler : Bool
  allowUntrusted : Bool
deriving DecidableEq

/-- An API endpoint with one action per HTTP method. -/
structure APIEndpoint where
  name : String
  path : String
  get : APIEndpointAction
  head : APIEndpointAction
  put : APIEndpointAction
  post : APIEndpointAction
  delete : APIEndpointAction
  patch : APIEndpointAction
deriving DecidableEq

/-- Outcome of the admission pipeline: one constructor per early return of
the createCmd handler closure, and dispatch when the request reaches the
method switch, carrying the context attached to the request (none when an
untrusted request was allowed through). -/
inductive PipeOut where
  | setupBusy
  | oidcUnauthorized
  | internalForbidden
  | untrustedForbidden
  | internalError
  | shuttingDown
  | dispatch (ctx : Option ReqCtx)
deriving DecidableEq

/-- Context attached for a trusted request: username, protocol, access
data, and the forwarded headers for cluster requests. -/
def mkCtx (d : Daemon) (a : AuthRes) (r : Request) : ReqCtx :=
  { username := a.username
    protocol := a.protocol
    access := getUserAccess d a.protocol a.username
    forwarded :=
      if a.protocol = "cluster" then
        some (r.forwardedAddress, r.forwardedUsername, r.forwardedProtocol)
      else none }

/-- The allowedDuringShutdown closure of the createCmd handler. -/
def allowedDuringShutdown (version : String) (c : APIEndpoint) (r : Request) :
    Bool :=
  version == "internal" || c.path == "" || c.path == "events" ||
    c.path == "operations" || c.path.startsWith "operations/" ||
    r.method == "GET"

/-- The untrustedOk condition of the createCmd handler: only a GET whose
Get action allows untrusted or a POST whose Post action allows untrusted. -/
def untrustedOk (c : APIEndpoint) (r : Request) : Bool :=
  (r.method == "GET" && c.get.allowUntrusted) ||
    (r.method == "POST" && c.post.allowUntrusted)

/-- The tail of the createCmd handler after the authentication decisions:
debug-mode body buffering (whose copy failure yields an internal error),
the shutdown gate, then dispatch. -/
def postAuth (d : Daemon) (version : String) (c : APIEndpoint) (r : Request)
    (ctx : Option ReqCtx) : PipeOut :=
  if d.debug && r.method != "GET" && r.isJSONRequest && r.bodyReadFails then
    PipeOut.internalError
  else if d.shutdownCancelled && !(allowedDuringShutdown version c r) then
    PipeOut.shuttingDown
  else PipeOut.dispatch ctx

/-- The part of the createCmd handler that follows the Authenticate call:
OIDC AuthError handling, internal-version policing, trusted context
attachment or untrusted allowance, then the postAuth tail. -/
def createCmdAuthStep (d : Daemon) (version : String) (c : APIEndpoint)
    (r : Request) (a : AuthRes) : PipeOut :=
  if a.err = AErr.oidcAuth then PipeOut.oidcUnauthorized
  else if version = "internal" ∧ ¬(a.protocol = "unix" ∨ a.protocol = "cluster") ∧
      (¬(a.trusted = true) ∨ c.path ≠ "cluster/accept" ∨ a.protocol ≠ "tls") then
    PipeOut.internalForbidden
  else if a.trusted then postAuth d version c r (some (mkCtx d a r))
  else if untrustedOk c r = true ∧ r.xIncusAuthenticated = "" then
    postAuth d version c r none
  else PipeOut.untrustedForbidden

/-- The request handler closure installed by createCmd (daemon.go): setup
gate, authentication, internal-version policing, trusted context or
untrusted allowance, debug buffering, shutdown gate, dispatch. -/
def createCmdHandler (d : Daemon) (version : String) (c : APIEndpoint)
    (r : Request) : PipeOut :=
  if ¬(r.remoteAddr = "@" ∧ version = "internal") ∧ ¬d.setupChanClosed then
    PipeOut.setupBusy
  else createCmdAuthStep d version c r (Authenticate d true r)

/-- State for setupSharedMounts: the process-global SharedMountsSetup flag,
whether the shmounts path is currently a mount point (linux.IsMountPoint),
a count of unix.Mount invocations performed, and the environment outcomes
of the two mount calls. -/
structure MountState where
  sharedMountsSetup : Bool
  shmountsIsMountPoint : Bool
  mountCalls : Nat
  tmpfsMountOK : Bool
  shareFlagsMountOK : Bool
deriving DecidableEq

/-- setupSharedMounts (daemon.go): returns the new state and the error
(none on success). The flag short-circuits first; an already-present mount
point sets the flag and returns; otherwise a tmpfs is mounted and marked
shared-recursive, and the flag is set only after both mounts succeed. A
successful tmpfs mount makes the path a mount point. -/
def setupSharedMounts (s : MountState) : MountState × Option String :=
  if s.sharedMountsSetup then (s, none)
  else if s.shmountsIsMountPoint then ({ s with sharedMountsSetup := true }, none)
  else
    let s1 := { s with mountCalls := s.mountCalls + 1 }
    if ¬(s.tmpfsMountOK = true) then (s1, some "mount tmpfs failed")
    else
      let s2 := { s1 with
        shmountsIsMountPoint := true
        mountCalls := s1.mountCalls + 1 }
      if ¬(s.shareFlagsMountOK = true) then (s2, some "mount shared failed")
      else ({ s2 with sharedMountsSetup := true }, none)

/-- A cluster member entry of an APIHeartbeat, with the fields the handler
reads. -/
structure Member where
  address : String
  name : String
  raftID : Nat
  raftRole : Nat
  online : Bool
deriving DecidableEq

/-- The heartbeat wire type reduced to the fields heartbeatHandler reads;
time is in whole seconds. -/
structure APIHeartbeat where
  time : Int
  members : List Member
  fullStateList : Bool
deriving DecidableEq

/-- A persisted raft node entry. -/
structure RaftNode where
  id : Nat
  address : String
  role : Nat
  name : String
deriving DecidableEq

/-- Daemon state read and written by heartbeatHandler: the timeSkew flag,
whether the cluster DB handle is non-nil, counters of ClusterTimeSkew
warning upserts and resolutions performed (the observable DB writes of the
time-skew bookkeeping), the local RaftNodes table, and the environment
outcome of the ReplaceRaftNodes transaction. -/
structure HBDaemon where
  timeSkew : Bool
  clusterOpen : Bool
  upsertCalls : Nat
  resolveCalls : Nat
  raftNodes : List RaftNode
  replaceOK : Bool
deriving DecidableEq

/-- The time-skew test of heartbeatHandler: the heartbeat time shifted five
seconds forward is still before now, or shifted five seconds back is still
after now. -/
def timeSkewed (hbTime now : Int) : Bool :=
  hbTime + 5 < now || hbTime - 5 > now

/-- The time-skew bookkeeping at the top of heartbeatHandler: on entering a
skew episode with the flag clear, upsert a ClusterTimeSkew warning (when
the cluster DB is open) and set the flag; on a heartbeat inside the window
with the flag set, resolve the warning (when the cluster DB is open) and
clear the flag. -/
def heartbeatSkewStep (d : HBDaemon) (now hbTime : Int) : HBDaemon :=
  if timeSkewed hbTime now then
    if ¬(d.timeSkew = true) then
      if d.clusterOpen then
        { d with upsertCalls := d.upsertCalls + 1, timeSkew := true }
      else { d with timeSkew := true }
    else { d with timeSkew := true }
  else
    if d.timeSkew then
      if d.clusterOpen then
        { d with resolveCalls := d.resolveCalls + 1, timeSkew := false }
      else { d with timeSkew := false }
    else d

/-- The raft-node extraction loop of heartbeatHandler: members whose raftID
is positive, carried over with address, role and name. -/
def extractRaftNodes (members : List Member) : List RaftNode :=
  (members.filter (fun m => decide (m.raftID > 0))).map
    (fun m => ⟨m.raftID, m.address, m.raftRole, m.name⟩)

/-- heartbeatHandler (daemon.go): time-skew bookkeeping, raft-node
extraction, refusal of an empty raft set (400), raft-table replacement in
one local transaction (500 on failure, table unchanged), then acceptance,
except that a partial heartbeat reaching the leader is refused (400). The
asynchronous nodeRefreshTask spawn has no effect on the returned state. -/
def heartbeatHandler (d : HBDaemon) (now : Int) (isLeader : Bool)
    (hb : APIHeartbeat) : HBDaemon × Nat :=
  let d1 := heartbeatSkewStep d now hb.time
  let raftNodes := extractRaftNodes hb.members
  if raftNodes = [] then (d1, 400)
  else if ¬(d1.replaceOK = true) then (d1, 500)
  else
    let d2 := { d1 with raftNodes := raftNodes }
    if hb.fullStateList then (d2, 200)
    else if isLeader then (d2, 400)
    else (d2, 200)

end IncusModel

open IncusModel

/-! Concrete sample inputs used by the witnesses and counterexamples. -/

/-- A plain endpoint action with a handler and nothing else. -/
def sampleAction : APIEndpointAction :=
  { hasHandler := true, hasAccessHandler := false, allowUntrusted := false }

/-- A sample endpoint at path instances with a handler on every method. -/
def sampleEndpoint : APIEndpoint :=
  { name := "instances"
    path := "instances"
    get := sampleAction
    head := sampleAction
    put := sampleAction
    post := sampleAction
    delete := sampleAction
    patch := sampleAction }

/-- A baseline daemon: setup complete, not shutting down, three singleton
trust sets, one restricted client fingerprint, no OIDC verifier. -/
def dBase : Daemon :=
  { setupChanClosed := true
    shutdownCancelled := false
    debug := false
    serverTrust := ["srv1"]
    metricsTrust := ["met1"]
    clientTrust := ["cli1"]
    certProjects := some [("cli1", ["p1", "p2"])]
    oidc := none }

/-- The baseline daemon before Init closes the setup channel. -/
def dOpen : Daemon := { dBase with setupChanClosed := false }

/-- The baseline daemon after shutdown has been initiated. -/
def dShut : Daemon := { dBase with shutdownCancelled := true }

/-- A TLS request over the network carrying the trusted client cert. -/
def rTLS : Request :=
  { remoteAddr := "192.0.2.1:50000"
    method := "GET"
    urlPath := "/1.0/instances"
    tls := some [{ fingerprint := "cli1" }]
    cred := none
    clusterNotification := false
    xIncusAuthenticated := ""
    forwardedAddress := ""
    forwardedUsername := ""
    forwardedProtocol := ""
    isJSONRequest := false
    bodyReadFails := false }

/-- The same trusted TLS request issued as a POST. -/
def rPOST : Request := { rTLS with method := "POST" }

/-- Helper: the post-authentication part of the handler never yields the
setup-gate response. -/
lemma createCmdAuthStep_ne_setupBusy (d : Daemon) (version : String)
    (c : APIEndpoint) (r : Request) (a : AuthRes) :
    createCmdAuthStep d version c r a ≠ PipeOut.setupBusy := by
  unfold createCmdAuthStep postAuth
  repeat' split
  all_goals simp

/-- C1: a request arriving before setupChan is closed and not a local-Unix
request to the internal version is answered with the setup-in-progress 503
before the handler runs; once setupChan is closed the setup gate admits
every request. -/
theorem setup_gate_C1 (d : Daemon) (version : String) (c : APIEndpoint)
    (r : Request) :
    (d.setupChanClosed = false → ¬(r.remoteAddr = "@" ∧ version = "internal") →
      createCmdHandler d version c r = PipeOut.setupBusy) ∧
    (d.setupChanClosed = true →
      createCmdHandler d version c r ≠ PipeOut.setupBusy) := by
  constructor
  · intro h1 h2
    unfold createCmdHandler
    rw [if_pos ⟨h2, by simp [h1]⟩]
  · intro h1
    unfold createCmdHandler
    rw [if_neg (by simp [h1])]
    exact createCmdAuthStep_ne_setupBusy d version c r (Authenticate d true r)

theorem setup_gate_C1_witness :
    createCmdHandler dOpen "1.0" sampleEndpoint rTLS = PipeOut.setupBusy ∧
    createCmdHandler dBase "1.0" sampleEndpoint rTLS ≠ PipeOut.setupBusy :=
  ⟨(setup_gate_C1 dOpen "1.0" sampleEndpoint rTLS).1 (by rfl) (by decide),
   (setup_gate_C1 dBase "1.0" sampleEndpoint rTLS).2 (by rfl)⟩

/-- Helper for the shutdown-gate claims: a pipeline run that is none of the
pre-dispatch rejections has reached the postAuth tail with some context. -/
lemma createCmdHandler_postAuth (d : Daemon) (version : String)
    (c : APIEndpoint) (r : Request)
    (h1 : createCmdHandler d version c r ≠ PipeOut.setupBusy)
    (h2 : createCmdHandler d version c r ≠ PipeOut.oidcUnauthorized)
    (h3 : createCmdHandler d version c r ≠ PipeOut.internalForbidden)
    (h4 : createCmdHandler d version c r ≠ PipeOut.untrustedForbidden) :
    ∃ ctx, createCmdHandler d version c r = postAuth d version c r ctx := by
  set a := Authenticate d true r with ha
  by_cases hs : ¬(r.remoteAddr = "@" ∧ version = "internal") ∧
      ¬(d.setupChanClosed = true)
  · exact absurd (by unfold createCmdHandler; rw [if_pos hs]) h1
  · have hrun : createCmdHandler d version c r = createCmdAuthStep d version c r a := by
      unfold createCmdHandler
      rw [if_neg hs, ha]
    rw [hrun] at h2 h3 h4 ⊢
    by_cases he : a.err = AErr.oidcAuth
    · exact absurd (by unfold createCmdAuthStep; rw [if_pos he]) h2
    · by_cases hi : version = "internal" ∧
          ¬(a.protocol = "unix" ∨ a.protocol = "cluster") ∧
          (¬(a.trusted = true) ∨ c.path ≠ "cluster/accept" ∨ a.protocol ≠ "tls")
      · exact absurd (by unfold createCmdAuthStep; rw [if_neg he, if_pos hi]) h3
      · by_cases ht : a.trusted = true
        · exact ⟨some (mkCtx d a r),
            by unfold createCmdAuthStep; rw [if_neg he, if_neg hi, if_pos ht]⟩
        · by_cases hu : untrustedOk c r = true ∧ r.xIncusAuthenticated = ""
          · exact ⟨none, by
              unfold createCmdAuthStep
              rw [if_neg he, if_neg hi, if_neg ht, if_pos hu]⟩
          · exact absurd (by
              unfold createCmdAuthStep
              rw [if_neg he, if_neg hi, if_neg ht, if_neg hu]) h4

/-- C2: once shutdownCtx is cancelled, a request that has passed the
earlier pipeline stages is answered 503 shutting-down unless it is to the
internal version, has the empty path, the events or operations path or an
operations/ child, or is a GET; a request matching one of those exceptions
is dispatched normally. -/
theorem shutdown_gate_C2 (d : Daemon) (version : String) (c : APIEndpoint)
    (r : Request)
    (hshut : d.shutdownCancelled = true)
    (h1 : createCmdHandler d version c r ≠ PipeOut.setupBusy)
    (h2 : createCmdHandler d version c r ≠ PipeOut.oidcUnauthorized)
    (h3 : createCmdHandler d version c r ≠ PipeOut.internalForbidden)
    (h4 : createCmdHandler d version c r ≠ PipeOut.untrustedForbidden)
    (h5 : createCmdHandler d version c r ≠ PipeOut.internalError) :
    (allowedDuringShutdown version c r = false →
      createCmdHandler d version c r = PipeOut.shuttingDown) ∧
    (allowedDuringShutdown version c r = true →
      ∃ ctx, createCmdHandler d version c r = PipeOut.dispatch ctx) := by
  obtain ⟨ctx, hctx⟩ := createCmdHandler_postAuth d version c r h1 h2 h3 h4
  rw [hctx] at h5 ⊢
  by_cases hd : (d.debug && r.method != "GET" && r.isJSONRequest &&
      r.bodyReadFails) = true
  · exact absurd (by simp [postAuth, hd]) h5
  · constructor
    · intro hall
      simp [postAuth, hd, hshut, hall]
    · intro hall
      exact ⟨ctx, by simp [postAuth, hd, hshut, hall]⟩

theorem shutdown_gate_C2_witness :
    createCmdHandler dShut "1.0" sampleEndpoint rPOST = PipeOut.shuttingDown ∧
    ∃ ctx, createCmdHandler dShut "1.0" sampleEndpoint rTLS =
      PipeOut.dispatch ctx :=
  ⟨(shutdown_gate_C2 dShut "1.0" sampleEndpoint rPOST (by rfl) (by decide)
      (by decide) (by decide) (by decide) (by decide)).1 (by decide),
   (shutdown_gate_C2 dShut "1.0" sampleEndpoint rTLS (by rfl) (by decide)
      (by decide) (by decide) (by decide) (by decide)).2 (by decide)⟩

/-- A request carrying a client-trusted certificate that also looks like a
cluster notification. -/
def rNotif : Request := { rTLS with clusterNotification := true }

/-- C3 counterexample: a request carrying a TLS peer certificate that is in
the client-trust set, but which looks like a cluster notification, is
refused by Authenticate instead of being accepted with protocol tls; the
cluster-notification check between the server-trust and metrics-trust
tests preempts the client-trust test, so the first matching certificate
does not determine the result. -/
theorem authenticate_order_C3_counterexample :
    rNotif.tls = some [{ fingerprint := "cli1" }] ∧
    dBase.clientTrust.contains "cli1" = true ∧
    (Authenticate dBase true rNotif).trusted = false ∧
    (Authenticate dBase true rNotif).protocol ≠ "tls" := by decide

/-- Helper: Authenticate on a request with TLS state present reduces to the
server-trust match followed by the remaining interception checks. -/
lemma Authenticate_tls_some (d : Daemon) (hasWriter : Bool) (r : Request)
    (certs : List Cert) (h : r.tls = some certs) :
    Authenticate d hasWriter r =
      (match firstTrustMatch certs d.serverTrust with
       | some fp => ⟨true, fp, "cluster", AErr.noErr⟩
       | none =>
         if r.remoteAddr = "@dev_incus" then ⟨false, "", "", AErr.plain⟩
         else if r.clusterNotification then ⟨false, "", "", AErr.plain⟩
         else authAfterTLSChecks d r certs) := by
  unfold Authenticate
  simp only [h]
  cases hm : firstTrustMatch certs d.serverTrust <;> simp [hm]

/-- C3 amended: for a request with TLS peer certificates, the server-trust
set is consulted first and the first match yields protocol cluster; when no
server-trust certificate matches, and the request is not from the dev-incus
socket, does not look like a cluster notification, and is not claimed by
the OIDC verifier, the metrics-trust set is consulted (only on the
/1.0/metrics path) and then the client-trust set, the first matching
certificate yielding protocol tls. -/
theorem authenticate_order_C3 (d : Daemon) (r : Request) (certs : List Cert)
    (htls : r.tls = some certs)
    (hdev : ¬(r.remoteAddr = "@dev_incus"))
    (hnotif : r.clusterNotification = false)
    (hoidc : ∀ o, d.oidc = some o → o.isRequest r = false) :
    (∀ fp, firstTrustMatch certs d.serverTrust = some fp →
      Authenticate d true r = ⟨true, fp, "cluster", AErr.noErr⟩) ∧
    (firstTrustMatch certs d.serverTrust = none →
      (r.urlPath = "/1.0/metrics" →
        ∀ fp, firstTrustMatch certs d.metricsTrust = some fp →
          Authenticate d true r = ⟨true, fp, "tls", AErr.noErr⟩) ∧
      ((r.urlPath = "/1.0/metrics" → firstTrustMatch certs d.metricsTrust = none) →
        ∀ fp, firstTrustMatch certs d.clientTrust = some fp →
          Authenticate d true r = ⟨true, fp, "tls", AErr.noErr⟩)) := by
  have key := Authenticate_tls_some d true r certs htls
  constructor
  · intro fp hsm
    rw [key, hsm]
  · intro hnone
    rw [key, hnone]
    simp only [if_neg hdev, hnotif, if_false, Bool.false_eq_true]
    have hafter : authAfterTLSChecks d r certs = authTLSCertChecks d r certs := by
      unfold authAfterTLSChecks
      cases ho : d.oidc with
      | none => rfl
      | some o => simp [hoidc o ho]
    rw [hafter]
    constructor
    · intro hpath fp hm
      unfold authTLSCertChecks
      rw [if_pos hpath, hm]
    · intro hmet fp hm
      unfold authTLSCertChecks
      by_cases hpath : r.urlPath = "/1.0/metrics"
      · rw [if_pos hpath, hmet hpath, hm]
      · rw [if_neg hpath, hm]

/-- A request presenting the server-trusted certificate. -/
def rSrv : Request := { rTLS with tls := some [{ fingerprint := "srv1" }] }

/-- A metrics request presenting the metrics-trusted certificate. -/
def rMet : Request :=
  { rTLS with urlPath := "/1.0/metrics", tls := some [{ fingerprint := "met1" }] }

theorem authenticate_order_C3_witness :
    Authenticate dBase true rSrv = ⟨true, "srv1", "cluster", AErr.noErr⟩ ∧
    Authenticate dBase true rMet = ⟨true, "met1", "tls", AErr.noErr⟩ ∧
    Authenticate dBase true rTLS = ⟨true, "cli1", "tls", AErr.noErr⟩ := by
  refine ⟨?_, ?_, ?_⟩
  · exact (authenticate_order_C3 dBase rSrv [{ fingerprint := "srv1" }] (by rfl)
      (by decide) (by rfl) (by intro o h; simp [dBase] at h)).1 "srv1" (by decide)
  · exact (((authenticate_order_C3 dBase rMet [{ fingerprint := "met1" }] (by rfl)
      (by decide) (by rfl) (by intro o h; simp [dBase] at h)).2
      (by decide)).1 (by rfl)) "met1" (by decide)
  · exact (((authenticate_order_C3 dBase rTLS [{ fingerprint := "cli1" }] (by rfl)
      (by decide) (by rfl) (by intro o h; simp [dBase] at h)).2
      (by decide)).2 (by decide)) "cli1" (by decide)

/-- The restriction entry of the per-certificate project map for a
fingerprint, none when the map is nil or has no entry. -/
def certProjectEntry (d : Daemon) (fp : String) : Option (List String) :=
  match d.certProjects with
  | none => none
  | some cp => lookupProjects cp fp

/-- Helper: a pipeline run ending in dispatch with an attached context got
that context from mkCtx applied to the Authenticate result. -/
lemma dispatch_some_ctx (d : Daemon) (version : String) (c : APIEndpoint)
    (r : Request) (ctx : ReqCtx)
    (h : createCmdHandler d version c r = PipeOut.dispatch (some ctx)) :
    ctx = mkCtx d (Authenticate d true r) r := by
  unfold createCmdHandler at h
  split at h
  · exact absurd h (by simp)
  · unfold createCmdAuthStep at h
    split at h
    · exact absurd h (by simp)
    · split at h
      · exact absurd h (by simp)
      · split at h
        · unfold postAuth at h
          split at h
          · exact absurd h (by simp)
          · split at h
            · exact absurd h (by simp)
            · simpa using h.symm
        · split at h
          · unfold postAuth at h
            split at h
            · exact absurd h (by simp)
            · split at h
              · exact absurd h (by simp)
              · exact absurd h (by simp)
          · exact absurd h (by simp)

/-- Helper: getUserAccess at protocol tls is determined by the restriction
entry for the fingerprint. -/
lemma getUserAccess_tls (d : Daemon) (u : String) :
    getUserAccess d "tls" u =
      (match certProjectEntry d u with
       | some ps => ⟨false, ps⟩
       | none => ⟨true, []⟩) := by
  unfold getUserAccess certProjectEntry
  rw [if_neg (by decide), if_pos rfl]
  cases hcp : d.certProjects with
  | none => simp
  | some cp =>
    cases hl : lookupProjects cp u with
    | none => simp [hl]
    | some ps => simp [hl]

/-- Helper: the access record built by mkCtx has the properties of the
userAccess closure, phrased through the attached context. -/
lemma mkCtx_access_props (d : Daemon) (a : AuthRes) (r : Request) :
    ((mkCtx d a r).protocol = "tls" →
      (∀ ps, certProjectEntry d (mkCtx d a r).username = some ps →
        (mkCtx d a r).access.admin = false ∧ (mkCtx d a r).access.projects = ps) ∧
      (certProjectEntry d (mkCtx d a r).username = none →
        (mkCtx d a r).access.admin = true)) ∧
    (((mkCtx d a r).protocol = "cluster" ∨ (mkCtx d a r).protocol = "unix") →
      (mkCtx d a r).access.admin = true) := by
  have huser : (mkCtx d a r).username = a.username := rfl
  have haccess : (mkCtx d a r).access = getUserAccess d a.protocol a.username := rfl
  constructor
  · intro hp
    rw [huser, haccess, show a.protocol = "tls" from hp, getUserAccess_tls]
    constructor
    · intro ps hps
      rw [hps]
      exact ⟨rfl, rfl⟩
    · intro hn
      rw [hn]
  · intro hp
    rw [haccess]
    rcases hp with hp | hp
    · rw [show a.protocol = "cluster" from hp]
      unfold getUserAccess
      rw [if_pos rfl]
    · rw [show a.protocol = "unix" from hp]
      unfold getUserAccess
      rw [if_neg (by decide), if_neg (by decide)]

/-- C4: whenever the pipeline dispatches a request with an attached
context, a tls-protocol context whose fingerprint has a restriction entry
carries admin=false and exactly that entry as its project list; a
tls-protocol context with no entry, and every cluster- or unix-protocol
context, carries admin=true. -/
theorem user_access_C4 (d : Daemon) (version : String) (c : APIEndpoint)
    (r : Request) (ctx : ReqCtx)
    (h : createCmdHandler d version c r = PipeOut.dispatch (some ctx)) :
    (ctx.protocol = "tls" →
      (∀ ps, certProjectEntry d ctx.username = some ps →
        ctx.access.admin = false ∧ ctx.access.projects = ps) ∧
      (certProjectEntry d ctx.username = none → ctx.access.admin = true)) ∧
    ((ctx.protocol = "cluster" ∨ ctx.protocol = "unix") →
      ctx.access.admin = true) := by
  have hctx := dispatch_some_ctx d version c r ctx h
  rw [hctx]
  exact mkCtx_access_props d (Authenticate d true r) r

/-- The context attached for the restricted client certificate. -/
def ctxCli : ReqCtx :=
  { username := "cli1"
    protocol := "tls"
    access := { admin := false, projects := ["p1", "p2"] }
    forwarded := none }

theorem user_access_C4_witness :
    ctxCli.access.admin = false ∧ ctxCli.access.projects = ["p1", "p2"] :=
  ((user_access_C4 dBase "1.0" sampleEndpoint rTLS ctxCli (by decide)).1
    (by decide)).1 ["p1", "p2"] (by decide)

/-- An endpoint whose Put action allows untrusted callers. -/
def cPut : APIEndpoint :=
  { sampleEndpoint with
    put := { hasHandler := true, hasAccessHandler := false, allowUntrusted := true } }

/-- An untrusted PUT request: TLS with a certificate in no trust set. -/
def rPUT : Request :=
  { rTLS with method := "PUT", tls := some [{ fingerprint := "unknown" }] }

/-- C5 counterexample: an untrusted PUT request to an endpoint whose Put
action has allowUntrusted set and which carries no X-Incus-authenticated
header is rejected with 403 instead of proceeding to dispatch: the
untrusted allowance covers only GET and POST. -/
theorem untrusted_gate_C5_counterexample :
    cPut.put.allowUntrusted = true ∧
    rPUT.method = "PUT" ∧
    rPUT.xIncusAuthenticated = "" ∧
    (Authenticate dBase true rPUT).trusted = false ∧
    createCmdHandler dBase "1.0" cPut rPUT = PipeOut.untrustedForbidden := by
  decide

/-- C5 amended: an untrusted request that has passed the setup gate, is not
an OIDC AuthError, and is not an internal-version rejection proceeds to
dispatch without an attached context exactly when the method is GET with
the Get action allowing untrusted, or POST with the Post action allowing
untrusted, and the X-Incus-authenticated header is absent; every other
untrusted request is rejected with 403 (stated with the daemon neither in
debug mode nor shutting down, so that the tail of the pipeline is the
dispatch itself). -/
theorem untrusted_gate_C5 (d : Daemon) (version : String) (c : APIEndpoint)
    (r : Request)
    (h1 : createCmdHandler d version c r ≠ PipeOut.setupBusy)
    (h2 : createCmdHandler d version c r ≠ PipeOut.oidcUnauthorized)
    (h3 : createCmdHandler d version c r ≠ PipeOut.internalForbidden)
    (ht : (Authenticate d true r).trusted = false)
    (hdbg : d.debug = false) (hshut : d.shutdownCancelled = false) :
    (untrustedOk c r = true ∧ r.xIncusAuthenticated = "" →
      createCmdHandler d version c r = PipeOut.dispatch none) ∧
    (¬(untrustedOk c r = true ∧ r.xIncusAuthenticated = "") →
      createCmdHandler d version c r = PipeOut.untrustedForbidden) := by
  set a := Authenticate d true r with ha
  by_cases hs : ¬(r.remoteAddr = "@" ∧ version = "internal") ∧
      ¬(d.setupChanClosed = true)
  · exact absurd (by unfold createCmdHandler; rw [if_pos hs]) h1
  · have hrun : createCmdHandler d version c r = createCmdAuthStep d version c r a := by
      unfold createCmdHandler
      rw [if_neg hs, ha]
    rw [hrun] at h2 h3 ⊢
    by_cases he : a.err = AErr.oidcAuth
    · exact absurd (by unfold createCmdAuthStep; rw [if_pos he]) h2
    · by_cases hi : version = "internal" ∧
          ¬(a.protocol = "unix" ∨ a.protocol = "cluster") ∧
          (¬(a.trusted = true) ∨ c.path ≠ "cluster/accept" ∨ a.protocol ≠ "tls")
      · exact absurd (by unfold createCmdAuthStep; rw [if_neg he, if_pos hi]) h3
      · have htf : ¬(a.trusted = true) := by simp [ht]
        constructor
        · intro hu
          unfold createCmdAuthStep
          rw [if_neg he, if_neg hi, if_neg htf, if_pos hu]
          simp [postAuth, hdbg, hshut]
        · intro hu
          unfold createCmdAuthStep
          rw [if_neg he, if_neg hi, if_neg htf, if_neg hu]

/-- An endpoint whose Get action allows untrusted callers. -/
def cGetU : APIEndpoint :=
  { sampleEndpoint with
    get := { hasHandler := true, hasAccessHandler := false, allowUntrusted := true } }

/-- An untrusted GET request: TLS with a certificate in no trust set. -/
def rGETu : Request := { rTLS with tls := some [{ fingerprint := "unknown" }] }

theorem untrusted_gate_C5_witness :
    createCmdHandler dBase "1.0" cGetU rGETu = PipeOut.dispatch none ∧
    createCmdHandler dBase "1.0" cPut rPUT = PipeOut.untrustedForbidden :=
  ⟨(untrusted_gate_C5 dBase "1.0" cGetU rGETu (by decide) (by decide) (by decide)
      (by decide) (by rfl) (by rfl)).1 (by decide),
   (untrusted_gate_C5 dBase "1.0" cPut rPUT (by decide) (by decide) (by decide)
      (by decide) (by rfl) (by rfl)).2 (by decide)⟩

/-- Helper: the skew bookkeeping never touches the RaftNodes table. -/
lemma heartbeatSkewStep_raftNodes (d : HBDaemon) (now hbTime : Int) :
    (heartbeatSkewStep d now hbTime).raftNodes = d.raftNodes := by
  unfold heartbeatSkewStep
  repeat' split
  all_goals simp

/-- Helper: the skew bookkeeping does not change whether the replace
transaction would succeed. -/
lemma heartbeatSkewStep_replaceOK (d : HBDaemon) (now hbTime : Int) :
    (heartbeatSkewStep d now hbTime).replaceOK = d.replaceOK := by
  unfold heartbeatSkewStep
  repeat' split
  all_goals simp

/-- Helper: the handler changes the timeSkew flag and the two warning
counters exactly as the skew bookkeeping does. -/
lemma heartbeatHandler_skewFields (d : HBDaemon) (now : Int) (isLeader : Bool)
    (hb : APIHeartbeat) :
    (heartbeatHandler d now isLeader hb).1.timeSkew =
      (heartbeatSkewStep d now hb.time).timeSkew ∧
    (heartbeatHandler d now isLeader hb).1.upsertCalls =
      (heartbeatSkewStep d now hb.time).upsertCalls ∧
    (heartbeatHandler d now isLeader hb).1.resolveCalls =
      (heartbeatSkewStep d now hb.time).resolveCalls := by
  unfold heartbeatHandler
  by_cases h1 : extractRaftNodes hb.members = []
  · simp [h1]
  · by_cases h2 : (heartbeatSkewStep d now hb.time).replaceOK = true
    · by_cases h3 : hb.fullStateList = true
      · simp [h1, h2, h3]
      · by_cases h4 : isLeader = true <;> simp [h1, h2, h3, h4]
    · simp [h1, h2]

/-- C6 counterexample: a heartbeat whose members yield an empty raft set
but whose timestamp is skewed makes the handler upsert a ClusterTimeSkew
warning (a DB write) before returning 400, so the handler does not leave
the DB entirely unmutated; the RaftNodes table itself is unchanged. -/
def hbd0 : HBDaemon :=
  { timeSkew := false
    clusterOpen := true
    upsertCalls := 0
    resolveCalls := 0
    raftNodes := [{ id := 1, address := "10.0.0.1:8443", role := 0, name := "m1" }]
    replaceOK := true }

/-- A skewed heartbeat with no members at all. -/
def hbEmptySkew : APIHeartbeat := { time := 10, members := [], fullStateList := true }

theorem heartbeat_empty_C6_counterexample :
    extractRaftNodes hbEmptySkew.members = [] ∧
    (heartbeatHandler hbd0 0 false hbEmptySkew).2 = 400 ∧
    (heartbeatHandler hbd0 0 false hbEmptySkew).1.raftNodes = hbd0.raftNodes ∧
    (heartbeatHandler hbd0 0 false hbEmptySkew).1.upsertCalls ≠ hbd0.upsertCalls := by
  decide

/-- C6 amended: a heartbeat whose members yield an empty raft-node list is
answered with 400 and the local RaftNodes table is left unchanged; the
time-skew bookkeeping that runs before the emptiness check may still write
or resolve a ClusterTimeSkew warning. -/
theorem heartbeat_empty_C6 (d : HBDaemon) (now : Int) (isLeader : Bool)
    (hb : APIHeartbeat) (h : extractRaftNodes hb.members = []) :
    (heartbeatHandler d now isLeader hb).2 = 400 ∧
    (heartbeatHandler d now isLeader hb).1.raftNodes = d.raftNodes := by
  unfold heartbeatHandler
  rw [h]
  simp [heartbeatSkewStep_raftNodes]

/-- A heartbeat with no members and a timestamp inside the window. -/
def hbEmptyOK : APIHeartbeat := { time := 0, members := [], fullStateList := true }

theorem heartbeat_empty_C6_witness :
    (heartbeatHandler hbd0 0 false hbEmptyOK).2 = 400 ∧
    (heartbeatHandler hbd0 0 false hbEmptyOK).1.raftNodes = hbd0.raftNodes :=
  heartbeat_empty_C6 hbd0 0 false hbEmptyOK (by decide)

/-- C7: when the cluster DB is open, a heartbeat skewed by more than five
seconds sets timeSkew and upserts the ClusterTimeSkew warning exactly when
timeSkew was previously clear (so one upsert per skew episode), and leaves
the upsert count unchanged while timeSkew is already set; a heartbeat back
inside the window while timeSkew is set resolves the warning and clears
the flag. -/
theorem heartbeat_skew_C7 (d : HBDaemon) (now : Int) (isLeader : Bool)
    (hb : APIHeartbeat) (hopen : d.clusterOpen = true) :
    (timeSkewed hb.time now = true →
      (heartbeatHandler d now isLeader hb).1.timeSkew = true ∧
      (d.timeSkew = false →
        (heartbeatHandler d now isLeader hb).1.upsertCalls = d.upsertCalls + 1) ∧
      (d.timeSkew = true →
        (heartbeatHandler d now isLeader hb).1.upsertCalls = d.upsertCalls)) ∧
    (timeSkewed hb.time now = false → d.timeSkew = true →
      (heartbeatHandler d now isLeader hb).1.timeSkew = false ∧
      (heartbeatHandler d now isLeader hb).1.resolveCalls = d.resolveCalls + 1) := by
  obtain ⟨e1, e2, e3⟩ := heartbeatHandler_skewFields d now isLeader hb
  rw [e1, e2, e3]
  constructor
  · intro hskew
    unfold heartbeatSkewStep
    rw [if_pos hskew]
    refine ⟨?_, ?_, ?_⟩
    · by_cases hts : d.timeSkew = true <;> simp [hts, hopen]
    · intro hts
      simp [hts, hopen]
    · intro hts
      simp [hts]
  · intro hskew hts
    unfold heartbeatSkewStep
    rw [if_neg (by simp [hskew]), if_pos hts, if_pos hopen]
    exact ⟨rfl, rfl⟩

/-- The daemon state inside a skew episode. -/
def hbdSkewed : HBDaemon := { hbd0 with timeSkew := true }

theorem heartbeat_skew_C7_witness :
    (heartbeatHandler hbd0 0 false hbEmptySkew).1.timeSkew = true ∧
    (heartbeatHandler hbd0 0 false hbEmptySkew).1.upsertCalls = hbd0.upsertCalls + 1 ∧
    (heartbeatHandler hbdSkewed 0 false hbEmptyOK).1.timeSkew = false ∧
    (heartbeatHandler hbdSkewed 0 false hbEmptyOK).1.resolveCalls =
      hbdSkewed.resolveCalls + 1 := by
  have h1 := (heartbeat_skew_C7 hbd0 0 false hbEmptySkew (by rfl)).1 (by decide)
  have h2 := (heartbeat_skew_C7 hbdSkewed 0 false hbEmptyOK (by rfl)).2 (by decide)
    (by rfl)
  exact ⟨h1.1, h1.2.1 (by rfl), h2.1, h2.2⟩

/-- C8: setupSharedMounts is idempotent: a first successful call sets the
SharedMountsSetup flag, and calling it again from the resulting state
returns nil and changes nothing (in particular it performs no further
mount operation, the mount counter being part of the state). -/
theorem shared_mounts_idempotent_C8 (s : MountState)
    (h : (setupSharedMounts s).2 = none) :
    (setupSharedMounts s).1.sharedMountsSetup = true ∧
    setupSharedMounts (setupSharedMounts s).1 = ((setupSharedMounts s).1, none) := by
  have flag : (setupSharedMounts s).1.sharedMountsSetup = true := by
    unfold setupSharedMounts at h ⊢
    by_cases hf : s.sharedMountsSetup = true
    · simp [hf]
    · by_cases hm : s.shmountsIsMountPoint = true
      · simp [hf, hm]
      · by_cases h1 : s.tmpfsMountOK = true
        · by_cases h2 : s.shareFlagsMountOK = true
          · simp [hf, hm, h1, h2]
          · simp [hf, hm, h1, h2] at h
        · simp [hf, hm, h1] at h
  have again : ∀ t : MountState, t.sharedMountsSetup = true →
      setupSharedMounts t = (t, none) := by
    intro t htf
    unfold setupSharedMounts
    rw [if_pos htf]
  exact ⟨flag, again _ flag⟩

/-- A fresh state: flag clear, nothing mounted, both mounts will succeed. -/
def mnt0 : MountState :=
  { sharedMountsSetup := false
    shmountsIsMountPoint := false
    mountCalls := 0
    tmpfsMountOK := true
    shareFlagsMountOK := true }

theorem shared_mounts_idempotent_C8_witness :
    (setupSharedMounts mnt0).1.sharedMountsSetup = true ∧
    setupSharedMounts (setupSharedMounts mnt0).1 =
      ((setupSharedMounts mnt0).1, none) :=
  shared_mounts_idempotent_C8 mnt0 (by decide)

/-- C9: for every project name and every instance name free of the
separator, InstanceParts inverts Instance, both when the project is the
default one (where Instance leaves the name unprefixed) and when the
project name itself contains the separator (InstanceParts splits at the
last occurrence). -/
theorem instance_roundtrip_C9 (p n : List Char) (h : Project.separator ∉ n) :
    Project.InstanceParts (Project.Instance p n) = (p, n) := by
  by_cases hp : p = Project.Default
  · subst hp
    unfold Project.Instance
    rw [if_neg (by simp)]
    unfold Project.InstanceParts
    rw [Project.lastIndexOfSep_eq_none_of_not_mem h]
  · unfold Project.Instance
    rw [if_pos hp]
    unfold Project.InstanceParts
    rw [Project.lastIndexOfSep_append h]
    show (List.take p.length (p ++ Project.separator :: n),
      List.drop (p.length + 1) (p ++ Project.separator :: n)) = (p, n)
    rw [Project.take_length_append, Project.drop_length_succ_append]

theorem instance_roundtrip_C9_witness :
    Project.InstanceParts
        (Project.Instance ['p', '_', 'q'] ['c', '1']) = (['p', '_', 'q'], ['c', '1']) ∧
    Project.InstanceParts
        (Project.Instance Project.Default ['c', '1']) = (Project.Default, ['c', '1']) :=
  ⟨instance_roundtrip_C9 ['p', '_', 'q'] ['c', '1'] (by decide),
   instance_roundtrip_C9 Project.Default ['c', '1'] (by decide)⟩

/-- C10: the total embedding of StorageVolumeParts returns none in its
second component exactly on separator-free inputs (where the Go code would
index out of range), and on an input with a separator it returns the part
before the first separator and the remainder. -/
theorem storage_volume_parts_C10 (s a b : List Char) :
    ((Project.StorageVolumeParts s).2 = none ↔ Project.separator ∉ s) ∧
    (Project.separator ∉ a →
      Project.StorageVolumeParts (a ++ Project.separator :: b) = (a, some b)) := by
  constructor
  · unfold Project.StorageVolumeParts
    cases hm : Project.indexOfSep s with
    | none =>
      exact ⟨fun _ => (Project.indexOfSep_eq_none_iff s).mp hm, fun _ => rfl⟩
    | some i =>
      constructor
      · intro hcontra
        exact Option.noConfusion hcontra
      · intro hnot
        rw [(Project.indexOfSep_eq_none_iff s).mpr hnot] at hm
        cases hm
  · intro ha
    unfold Project.StorageVolumeParts
    rw [Project.indexOfSep_append ha]
    show (List.take a.length (a ++ Project.separator :: b),
      some (List.drop (a.length + 1) (a ++ Project.separator :: b))) = (a, some b)
    rw [Project.take_length_append, Project.drop_length_succ_append]

theorem storage_volume_parts_C10_witness :
    ((Project.StorageVolumeParts ['v', 'o', 'l']).2 = none ↔
      Project.separator ∉ ['v', 'o', 'l']) ∧
    Project.StorageVolumeParts (['p', 'r'] ++ Project.separator :: ['v', '1']) =
      (['p', 'r'], some ['v', '1']) :=
  ⟨(storage_volume_parts_C10 ['v', 'o', 'l'] ['p', 'r'] ['v', '1']).1,
   (storage_volume_parts_C10 ['v', 'o', 'l'] ['p', 'r'] ['v', '1']).2 (by decide)⟩
